import Mathlib

/-!
Verification of the eurlex document-structure extraction engine.

The Python source (src/eurlex/__init__.py) is shallowly embedded here:
strings are Lean `String`s manipulated through character-list helpers that
mirror the Python `str` operations used by the source (`strip`, `split`,
`join`, `replace`, `startswith`, the two `re.match` patterns), XML element
trees (`xml.etree.ElementTree.Element`) become the inductive `XTree`,
Python dicts (used both for the walker context and for the paragraph
mapping) become insertion-ordered association lists, and the Python
exceptions that can escape the walker (`TypeError` from `re.match(None)` /
`str + None`, `AttributeError` from `None.replace`) become an explicit
`Except PyErr` result.
-/

namespace Eurlex

/-! ### Character-list embeddings of the Python string operations -/

/-- Python `str.strip()` whitespace test (ASCII whitespace). -/
def isPySpace (c : Char) : Bool :=
  c == ' ' || c == '\t' || c == '\n' || c == '\r' || c == '\x0b' || c == '\x0c'

/-- Python `str.strip()` on a character list. -/
def stripL (l : List Char) : List Char :=
  ((l.dropWhile isPySpace).reverse.dropWhile isPySpace).reverse

/-- Python `str.strip()`. -/
def pyStrip (s : String) : String := String.mk (stripL s.toList)

/-- Python `str.split(sep)` for a one-character separator. -/
def splitChar (sep : Char) : List Char → List (List Char)
  | [] => [[]]
  | c :: rest =>
    if c == sep then [] :: splitChar sep rest
    else
      match splitChar sep rest with
      | h :: t => (c :: h) :: t
      | [] => [[c]]

/-- Python `sep.join(parts)` for a one-character separator. -/
def joinChar (sep : Char) : List (List Char) → List Char
  | [] => []
  | [x] => x
  | x :: xs => x ++ [sep] ++ joinChar sep xs

/-- Python `str.startswith` on character lists. -/
def isPrefixOfL : List Char → List Char → Bool
  | [], _ => true
  | _ :: _, [] => false
  | p :: ps, c :: cs => p == c && isPrefixOfL ps cs

/-- Python `str.startswith`. -/
def pyStartsWith (s pre : String) : Bool := isPrefixOfL pre.toList s.toList

/-- Python `s.replace("     ", "\n")` (the five-space run used by
`parse_article_paragraphs`): leftmost non-overlapping replacement. -/
def replaceBreaks : List Char → List Char
  | ' ' :: ' ' :: ' ' :: ' ' :: ' ' :: rest => '\n' :: replaceBreaks rest
  | c :: rest => c :: replaceBreaks rest
  | [] => []

/-- Python `s.replace("Article", "")` (used by the `ti-art` branch):
leftmost non-overlapping replacement by the empty string. -/
def removeArticle : List Char → List Char
  | 'A' :: 'r' :: 't' :: 'i' :: 'c' :: 'l' :: 'e' :: rest => removeArticle rest
  | c :: rest => c :: removeArticle rest
  | [] => []

/-- Successful match of Python `re.match(r"^[0-9]+[.]", s)`: one or more
ASCII digits followed by a period, at the start of the string. -/
def matchNumDot (l : List Char) : Bool :=
  let ds := l.takeWhile Char.isDigit
  !ds.isEmpty && ((l.drop ds.length).head? == some '.')

/-- Successful match of Python `re.match(r"^[(]([0-9]+)[)]", s)`. -/
def matchParenNum (l : List Char) : Bool :=
  match l with
  | '(' :: rest =>
    let ds := rest.takeWhile Char.isDigit
    !ds.isEmpty && ((rest.drop ds.length).head? == some ')')
  | _ => false

/-! ### XML element trees and insertion-ordered dictionaries -/

/-- `xml.etree.ElementTree.Element`: raw tag (possibly carrying a
`{namespace}` prefix), attributes, direct text before the first child,
and the list of child elements. -/
inductive XTree where
  | elem (tag : String) (attrs : List (String × String)) (txt : Option String)
      (children : List XTree)

def XTree.tag : XTree → String
  | .elem t _ _ _ => t

def XTree.attrs : XTree → List (String × String)
  | .elem _ a _ _ => a

def XTree.txt : XTree → Option String
  | .elem _ _ tx _ => tx

def XTree.children : XTree → List XTree
  | .elem _ _ _ cs => cs

/-- `child.attrib[name]` lookup (`None` when the attribute is absent). -/
def getAttr (t : XTree) (name : String) : Option String :=
  (t.attrs.find? (fun p => p.1 == name)).map (·.2)

/-- The walker context: a Python dict from key to value, keeping the
dict's insertion order; a value may be Python `None` (stored by the
`sti-art` / `ti-grseq-` / `ti-section-` branches when no text exists). -/
abbrev Ctx := List (String × Option String)

/-- `key in d` for a Python dict. -/
def ctxHas (ctx : Ctx) (k : String) : Bool := ctx.any (fun p => p.1 == k)

/-- `d[key] = v` for a Python dict: update in place keeps the key's
position, a new key is appended at the end. -/
def ctxSet (ctx : Ctx) (k : String) (v : Option String) : Ctx :=
  if ctxHas ctx k then ctx.map (fun p => if p.1 == k then (k, v) else p)
  else ctx ++ [(k, v)]

/-- `d.get(key)`: `some v` when the key is present with value `v`. -/
def ctxGet (ctx : Ctx) (k : String) : Option (Option String) :=
  (ctx.find? (fun p => p.1 == k)).map (·.2)

/-! ### Records and errors -/

/-- One emitted record: the keys of the Python dicts built by
`parse_span` / `parse_modifiers` / `parse_article`.  `modifier` is absent
except for the three modifier classes. -/
structure Record where
  text : Option String
  type : String
  modifier : Option String := none
  ref : List (Option String)
  context : Ctx
deriving DecidableEq, Repr

/-- The Python exceptions that can escape the walker. -/
inductive PyErr where
  | typeError
  | attributeError
deriving DecidableEq, Repr

/-! ### The Text Extractor (`_get_text`) -/

/-- `_get_text`: with exactly one child element, recurse into it;
otherwise return the node's own direct text stripped, or no value. -/
def get_text : XTree → Option String
  | .elem _ _ txt cs =>
    match cs with
    | [c] => get_text c
    | _ => txt.map pyStrip

/-! ### The Node Classifier (`parse_modifiers`, `parse_span`) -/

/-- `parse_modifiers`: emit a `text` record tagged with the modifier for
the classes `italic`, `signatory`, `note`; everything else yields nothing.
Call sites (`parse_span`'s final branch) guarantee the `class` attribute
is present. -/
def parse_modifiers (child : XTree) (ref : List (Option String)) (ctx : Ctx) :
    List Record :=
  match getAttr child "class" with
  | some cls =>
    if cls == "italic" then
      [{ text := get_text child, type := "text", modifier := some "italic",
         ref := ref, context := ctx }]
    else if cls == "signatory" then
      [{ text := get_text child, type := "text", modifier := some "signatory",
         ref := ref, context := ctx }]
    else if cls == "note" then
      [{ text := get_text child, type := "text", modifier := some "note",
         ref := ref, context := ctx }]
    else []
  | none => []

/-- The leading digits of the extracted text, i.e. Python
`text.split(".")[0]` when `^[0-9]+[.]` matched. -/
def numDotLabel (l : List Char) : List Char := (splitChar '.' l).headD []

/-- Python `".".join(text.split(".")[1:]).strip()`. -/
def numDotStrip (l : List Char) : List Char :=
  stripL (joinChar '.' (splitChar '.' l).tail)

/-- `parse_span`: classify a `<p>`/`<span>` node by its `class` attribute,
emit the corresponding records and mutate the context dict in place (here:
return the updated context).  The branches in which the Python code applies
a string operation to a possibly-`None` extracted text (`doc-ti` via
`str += None`, `ti-art` via `None.replace`, `normal` via `re.match` on
`None`) surface the corresponding Python exception. -/
def parse_span (child : XTree) (ref : List (Option String)) (ctx : Ctx) :
    Except PyErr (List Record × Ctx) :=
  match getAttr child "class" with
  | none => .ok ([], ctx)
  | some cls =>
    if cls == "doc-ti" then
      let c1 := if ctxHas ctx "document" then ctx else ctxSet ctx "document" (some "")
      match ctxGet c1 "document", get_text child with
      | some (some d), some t =>
        let c2 := ctxSet c1 "document" (some (d ++ t))
        .ok ([{ text := some t, type := "doc-title", ref := ref, context := c2 }], c2)
      | _, _ => .error .typeError
    else if cls == "sti-art" then
      let t := get_text child
      let c2 := ctxSet ctx "article_subtitle" t
      .ok ([{ text := t, type := "art-subtitle", ref := ref, context := c2 }], c2)
    else if cls == "ti-art" then
      match get_text child with
      | some t =>
        let c2 := ctxSet ctx "article" (some (pyStrip (String.mk (removeArticle t.toList))))
        .ok ([{ text := some t, type := "art-title", ref := ref, context := c2 }], c2)
      | none => .error .attributeError
    else if pyStartsWith cls "ti-grseq-" then
      let t := get_text child
      .ok ([{ text := t, type := "group-title", ref := ref, context := ctx }],
        ctxSet ctx "group" t)
    else if pyStartsWith cls "ti-section-" then
      let t := get_text child
      .ok ([{ text := t, type := "section-title", ref := ref, context := ctx }],
        ctxSet ctx "section" t)
    else if cls == "normal" then
      match get_text child with
      | some t =>
        if matchNumDot t.toList then
          let c2 := ctxSet ctx "paragraph" (some (String.mk (numDotLabel t.toList)))
          .ok ([{ text := some (String.mk (numDotStrip t.toList)), type := "text",
                  ref := ref, context := c2 }], c2)
        else
          .ok ([{ text := some t, type := "text", ref := ref, context := ctx }], ctx)
      | none => .error .typeError
    else
      .ok (parse_modifiers child ref ctx, ctx)

/-! ### Tag names and the table-shape search -/

/-- `get_tag_name`: strip a `{namespace}` prefix from a raw tag. -/
def get_tag_name (raw : String) : String :=
  if raw.toList.contains '}' then
    String.mk ((splitChar '}' raw.toList).getD 1 [])
  else raw

/-- The XHTML namespace used by the source's namespaced `findall`. -/
def xhtmlNs : String := "\x7bhttp://www.w3.org/1999/xhtml\x7d"

/-- `child.findall("tbody/tr/td")` with each path component prefixed by
`pfx`: the `td` grandchildren reachable through direct `tbody` and `tr`
children, in document order. -/
def findTds (pfx : String) (t : XTree) : List XTree :=
  (t.children.filter (fun c => c.tag == pfx ++ "tbody")).flatMap (fun tb =>
    (tb.children.filter (fun c => c.tag == pfx ++ "tr")).flatMap (fun tr =>
      tr.children.filter (fun c => c.tag == pfx ++ "td")))

/-- The concatenation of the namespaced and the plain `findall` used by
`parse_article`'s table branch. -/
def tableCells (t : XTree) : List XTree := findTds xhtmlNs t ++ findTds "" t

theorem sizeOf_lt_of_mem_children {c t : XTree} (h : c ∈ t.children) :
    sizeOf c < sizeOf t := by
  cases t with
  | elem tg a tx cs =>
    simp only [XTree.children] at h
    have := List.sizeOf_lt_of_mem h
    simp only [XTree.elem.sizeOf_spec]
    omega

theorem sizeOf_children_lt {t : XTree} : sizeOf t.children < sizeOf t := by
  cases t with
  | elem tg a tx cs =>
    simp only [XTree.children, XTree.elem.sizeOf_spec]
    omega

theorem sizeOf_lt_of_mem_tableCells {c t : XTree} (h : c ∈ tableCells t) :
    sizeOf c < sizeOf t := by
  rcases List.mem_append.mp h with h' | h' <;>
  · rcases List.mem_flatMap.mp h' with ⟨tb, htb, h2⟩
    rcases List.mem_flatMap.mp h2 with ⟨tr, htr, h3⟩
    have h4 := sizeOf_lt_of_mem_children (List.mem_of_mem_filter h3)
    have h5 := sizeOf_lt_of_mem_children (List.mem_of_mem_filter htr)
    have h6 := sizeOf_lt_of_mem_children (List.mem_of_mem_filter htb)
    omega

/-- The shape test of `parse_article`'s table branch: exactly two cells
found by the row search, exactly one child in the first cell, and that
child tagged `p`.  On success, returns the second cell (recursion target)
together with the first cell's single child (the outline-label node). -/
def tableShape (child : XTree) : Option (XTree × XTree) :=
  match tableCells child with
  | [c1, c2] =>
    match c1.children with
    | [k] => if get_tag_name k.tag == "p" then some (c2, k) else none
    | _ => none
  | _ => none

theorem tableShape_eq_some {child c2 k : XTree}
    (h : tableShape child = some (c2, k)) :
    ∃ c1, tableCells child = [c1, c2] ∧ c1.children = [k] ∧
      get_tag_name k.tag = "p" := by
  unfold tableShape at h
  split at h
  case h_2 => simp at h
  case h_1 c1 c2' heq =>
    split at h
    case h_2 => simp at h
    case h_1 k' heq2 =>
      split at h
      case isFalse => simp at h
      case isTrue hp =>
        simp only [Option.some.injEq, Prod.mk.injEq] at h
        obtain ⟨rfl, rfl⟩ := h
        exact ⟨c1, heq, heq2, by simpa using hp⟩

theorem sizeOf_lt_of_tableShape {child c2 k : XTree}
    (h : tableShape child = some (c2, k)) : sizeOf c2 < sizeOf child := by
  obtain ⟨c1, h1, -, -⟩ := tableShape_eq_some h
  exact sizeOf_lt_of_mem_tableCells (h1 ▸ (by simp : c2 ∈ [c1, c2]))

/-! ### The Tree Walker (`parse_article`)

`parse_article(tree, ref, context)` makes one working copy
`new_context = context.copy()` and iterates over the children; `parse_span`
mutates that working copy in place (modelled by threading it through
`goChildren`), while the `table`/`div` recursions receive the working copy
and the `body` recursion receives the *original* `context` argument — in
every one of those three cases the callee immediately copies, so none of
them writes back into the caller's working copy. -/

mutual

/-- One iteration of `parse_article`'s `for child in tree` loop: `orig` is
the walker's incoming `context` argument, `w` the current state of its
working copy `new_context`; returns the records the child contributed and
the state of the working copy afterwards. -/
def walkChild (child : XTree) (ref : List (Option String)) (orig w : Ctx) :
    Except PyErr (List Record × Ctx) :=
  let tn := get_tag_name child.tag
  if tn == "a" then
    .ok ([{ text := get_text child, type := "link", ref := ref, context := w }], w)
  else if tn == "p" || tn == "span" then
    parse_span child ref w
  else if tn == "table" then
    match h1 : tableShape child with
    | some (c2, k) =>
      match goChildren w (ref ++ [get_text k]) c2.children w with
      | .error e => .error e
      | .ok (o, _) => .ok (o, w)
    | none => .ok ([], w)
  else if tn == "div" then
    match goChildren w ref child.children w with
    | .error e => .error e
    | .ok (o, _) => .ok (o, w)
  else if tn == "head" || tn == "hr" then .ok ([], w)
  else if tn == "body" then
    match goChildren orig ref child.children orig with
    | .error e => .error e
    | .ok (o, _) => .ok (o, w)
  else .ok ([], w)
termination_by sizeOf child
decreasing_by
  · have := sizeOf_lt_of_tableShape h1
    have := @sizeOf_children_lt c2
    omega
  · have := @sizeOf_children_lt child
    omega
  · have := @sizeOf_children_lt child
    omega

/-- `parse_article`'s child loop over `children`, starting from working
copy `w`, with `orig` the incoming `context` argument (used only by the
`body` branch). -/
def goChildren (orig : Ctx) (ref : List (Option String)) :
    List XTree → Ctx → Except PyErr (List Record × Ctx)
  | [], w => .ok ([], w)
  | c :: cs, w =>
    match walkChild c ref orig w with
    | .error e => .error e
    | .ok (o1, w1) =>
      match goChildren orig ref cs w1 with
      | .error e => .error e
      | .ok (o2, w2) => .ok (o1 ++ o2, w2)
termination_by cs => sizeOf cs
decreasing_by
  · simp only [List.cons.sizeOf_spec]
    omega
  · simp only [List.cons.sizeOf_spec]
    omega

end

/-- `parse_article`: walk the children of `tree` starting from a fresh
copy of `ctx` and return the emitted records. -/
def parse_article (tree : XTree) (ref : List (Option String)) (ctx : Ctx) :
    Except PyErr (List Record) :=
  match goChildren ctx ref tree.children ctx with
  | .error e => .error e
  | .ok (o, _) => .ok o

/-! ### The Record Assembler (`parse_html`) -/

/-- A record after `parse_html`'s flattening loop: the original record
plus its context keys copied as top-level fields. -/
structure FlatRecord where
  base : Record
  top : Ctx
deriving DecidableEq, Repr

/-- `for key, value in item["context"].items(): item[key] = value`. -/
def flattenRecord (r : Record) : FlatRecord := { base := r, top := r.context }

/-- `parse_html`: the argument is the outcome of
`xml.etree.ElementTree.fromstring` on the input string (`Except.error` when
the markup fails to parse, which the source catches and turns into an
empty result).  On a parsed tree it walks from the root, flattens every
record's context into top-level fields, and keeps only the records whose
`type` is `"text"`. -/
def parse_html (parsed : Except Unit XTree) : Except PyErr (List FlatRecord) :=
  match parsed with
  | .error _ => .ok []
  | .ok tree =>
    match parse_article tree [] [] with
    | .error e => .error e
    | .ok items =>
      .ok ((items.map flattenRecord).filter (fun r => r.base.type == "text"))

/-! ### The Paragraph Splitter (`parse_article_paragraphs`) -/

/-- Append `line` to `paragraphs[k]`, creating the key (at the end, in
insertion order) when absent — Python's
`if paragraph not in paragraphs: paragraphs[paragraph] = []` followed by
`paragraphs[paragraph].append(line)`. -/
def paraAdd (m : List (Option String × List (List Char))) (k : Option String)
    (line : List Char) : List (Option String × List (List Char)) :=
  let m1 := if m.any (fun p => p.1 == k) then m else m ++ [(k, [])]
  m1.map (fun p => if p.1 == k then (p.1, p.2 ++ [line]) else p)

/-- The line loop of `parse_article_paragraphs`: `par` is the current
value of the `paragraph` variable. -/
def paraGo : List (List Char) → Option String →
    List (Option String × List (List Char)) → List (Option String × List (List Char))
  | [], _, m => m
  | line :: rest, par, m =>
    if matchNumDot line then
      let lab := some (String.mk (line.takeWhile Char.isDigit ++ ['.']))
      let line2 := stripL (joinChar '.' (splitChar '.' line).tail)
      paraGo rest lab (paraAdd m lab line2)
    else if matchParenNum line then
      let lab := some (String.mk ('(' :: (line.drop 1).takeWhile Char.isDigit ++ [')']))
      let line2 := stripL (joinChar ')' (splitChar ')' line).tail)
      paraGo rest lab (paraAdd m lab line2)
    else
      paraGo rest par (paraAdd m par line)

/-- `parse_article_paragraphs`: replace five-space runs by line breaks,
scan the lines for `^[0-9]+[.]` / `^[(]([0-9]+)[)]` markers, group the
lines under the current marker (or `None` before the first marker), and
join each group with line breaks, trimmed; insertion order of the labels
is kept. -/
def parse_article_paragraphs (article : String) : List (Option String × String) :=
  (paraGo (splitChar '\n' (replaceBreaks article.toList)) none []).map
    (fun p => (p.1, pyStrip (String.mk (joinChar '\n' p.2))))

/-! ### Basic lemmas about the walker -/

instance {ε α : Type} [DecidableEq ε] [DecidableEq α] : DecidableEq (Except ε α) := fun
  | .error e, .error f =>
    match decEq e f with
    | .isTrue h => .isTrue (by rw [h])
    | .isFalse h => .isFalse (by intro hh; cases hh; exact h rfl)
  | .error _, .ok _ => .isFalse (by intro h; cases h)
  | .ok _, .error _ => .isFalse (by intro h; cases h)
  | .ok a, .ok b =>
    match decEq a b with
    | .isTrue h => .isTrue (by rw [h])
    | .isFalse h => .isFalse (by intro hh; cases hh; exact h rfl)

theorem goChildren_nil (orig : Ctx) (ref : List (Option String)) (w : Ctx) :
    goChildren orig ref [] w = .ok ([], w) := by
  simp [goChildren]

theorem goChildren_cons_ok {c : XTree} {ref : List (Option String)} {orig w w1 w2 : Ctx}
    {o1 o2 : List Record} {cs : List XTree}
    (h1 : walkChild c ref orig w = .ok (o1, w1))
    (h2 : goChildren orig ref cs w1 = .ok (o2, w2)) :
    goChildren orig ref (c :: cs) w = .ok (o1 ++ o2, w2) := by
  rw [goChildren]
  simp only [h1, h2]

theorem goChildren_cons_error {c : XTree} {ref : List (Option String)} {orig w : Ctx}
    {e : PyErr} {cs : List XTree}
    (h1 : walkChild c ref orig w = .error e) :
    goChildren orig ref (c :: cs) w = .error e := by
  rw [goChildren]
  simp only [h1]

theorem walkChild_link {child : XTree} {ref : List (Option String)} {orig w : Ctx}
    (h : get_tag_name child.tag = "a") :
    walkChild child ref orig w =
      .ok ([{ text := get_text child, type := "link", ref := ref, context := w }], w) := by
  rw [walkChild]
  simp [h]

theorem walkChild_span {child : XTree} {ref : List (Option String)} {orig w : Ctx}
    (h : get_tag_name child.tag = "p" ∨ get_tag_name child.tag = "span") :
    walkChild child ref orig w = parse_span child ref w := by
  rw [walkChild]
  rcases h with h | h <;> simp [h]

theorem walkChild_div {child : XTree} {ref : List (Option String)} {orig w : Ctx}
    (h : get_tag_name child.tag = "div") :
    walkChild child ref orig w =
      match parse_article child ref w with
      | .error e => .error e
      | .ok o => .ok (o, w) := by
  rw [walkChild]
  simp only [h, parse_article]
  simp
  rcases goChildren w ref child.children w with e | ⟨o, w2⟩ <;> rfl

theorem walkChild_body {child : XTree} {ref : List (Option String)} {orig w : Ctx}
    (h : get_tag_name child.tag = "body") :
    walkChild child ref orig w =
      match parse_article child ref orig with
      | .error e => .error e
      | .ok o => .ok (o, w) := by
  rw [walkChild]
  simp only [h, parse_article]
  simp
  rcases goChildren orig ref child.children orig with e | ⟨o, w2⟩ <;> rfl

theorem walkChild_table {child c2 k : XTree} {ref : List (Option String)}
    {orig w : Ctx}
    (htag : get_tag_name child.tag = "table")
    (hs : tableShape child = some (c2, k)) :
    walkChild child ref orig w =
      match parse_article c2 (ref ++ [get_text k]) w with
      | .error e => .error e
      | .ok o => .ok (o, w) := by
  rw [walkChild]
  simp only [htag]
  simp
  split
  case h_1 c2' k' heq =>
    rw [hs] at heq
    simp only [Option.some.injEq, Prod.mk.injEq] at heq
    obtain ⟨rfl, rfl⟩ := heq
    simp only [parse_article]
    rcases goChildren w (ref ++ [get_text k]) c2.children w with e | ⟨o, w2⟩ <;> rfl
  case h_2 heq => rw [hs] at heq; simp at heq

theorem walkChild_table_skip {child : XTree} {ref : List (Option String)}
    {orig w : Ctx}
    (htag : get_tag_name child.tag = "table")
    (hs : tableShape child = none) :
    walkChild child ref orig w = .ok ([], w) := by
  rw [walkChild]
  simp only [htag]
  simp
  split
  case h_1 c2' k' heq => rw [hs] at heq; simp at heq
  case h_2 => rfl

theorem walkChild_div_ok {child : XTree} {ref : List (Option String)} {orig w : Ctx}
    {o : List Record}
    (h : get_tag_name child.tag = "div") (hpa : parse_article child ref w = .ok o) :
    walkChild child ref orig w = .ok (o, w) := by
  rw [walkChild_div h]
  simp only [hpa]

theorem walkChild_body_ok {child : XTree} {ref : List (Option String)} {orig w : Ctx}
    {o : List Record}
    (h : get_tag_name child.tag = "body") (hpa : parse_article child ref orig = .ok o) :
    walkChild child ref orig w = .ok (o, w) := by
  rw [walkChild_body h]
  simp only [hpa]

theorem walkChild_table_ok {child c2 k : XTree} {ref : List (Option String)}
    {orig w : Ctx} {o : List Record}
    (htag : get_tag_name child.tag = "table")
    (hs : tableShape child = some (c2, k))
    (hpa : parse_article c2 (ref ++ [get_text k]) w = .ok o) :
    walkChild child ref orig w = .ok (o, w) := by
  rw [walkChild_table htag hs]
  simp only [hpa]

theorem parse_article_ok {t : XTree} {ref : List (Option String)} {ctx w : Ctx}
    {o : List Record}
    (h : goChildren ctx ref t.children ctx = .ok (o, w)) :
    parse_article t ref ctx = .ok o := by
  simp only [parse_article, h]

theorem parse_article_error {t : XTree} {ref : List (Option String)} {ctx : Ctx}
    {e : PyErr}
    (h : goChildren ctx ref t.children ctx = .error e) :
    parse_article t ref ctx = .error e := by
  simp only [parse_article, h]

theorem parse_html_ok {t : XTree} {items : List Record}
    (h : parse_article t [] [] = .ok items) :
    parse_html (.ok t) =
      .ok ((items.map flattenRecord).filter (fun r => r.base.type == "text")) := by
  simp only [parse_html, h]

theorem parse_html_error {t : XTree} {e : PyErr}
    (h : parse_article t [] [] = .error e) :
    parse_html (.ok t) = .error e := by
  simp only [parse_html, h]

theorem tableShape_of {child c1 c2 k : XTree}
    (h1 : tableCells child = [c1, c2]) (h2 : c1.children = [k])
    (h3 : get_tag_name k.tag = "p") :
    tableShape child = some (c2, k) := by
  simp [tableShape, h1, h2, h3]

theorem tableShape_none_of {child : XTree}
    (h : ¬ ∃ c1 c2 k, tableCells child = [c1, c2] ∧ c1.children = [k] ∧
      get_tag_name k.tag = "p") :
    tableShape child = none := by
  rcases hs : tableShape child with _ | ⟨c2, k⟩
  · rfl
  · obtain ⟨c1, h1, h2, h3⟩ := tableShape_eq_some hs
    exact absurd ⟨c1, c2, k, h1, h2, h3⟩ h

/-- Shorthand for a `<p class="...">text</p>` leaf node. -/
def pCls (cls t : String) : XTree := .elem "p" [("class", cls)] (some t) []

/-! ### Claim C8 -/

/-- Claim C8: `parse_article_paragraphs` applied to
`"Intro text.     1. First.     2. Second."` (five-space runs standing in
for line breaks) returns the ordered mapping
`{None: "Intro text.", "1.": "First.", "2.": "Second."}`: the label-less
leading line is collected under the `None` label, each marker line opens a
new paragraph labeled by the matched marker with the marker stripped from
its first line, and insertion order is preserved. -/
theorem paragraph_splitter_roundtrip :
    parse_article_paragraphs "Intro text.     1. First.     2. Second." =
      [(none, "Intro text."), (some "1.", "First."), (some "2.", "Second.")] := by
  decide

/-! ### Claim C9 -/

/-- Claim C9: when the markup fails to parse syntactically (the embedded
outcome of `ElementTree.fromstring` is an error, as for the input
`"<html"`), `parse_html` returns an empty result sequence and surfaces no
error to the caller. -/
theorem parse_html_parse_failure_yields_empty (e : Unit) :
    parse_html (.error e) = .ok [] := rfl

/-! ### Claim C6 -/

/-- Claim C6: for a `normal`-class paragraph, a leading bare `<digits>.`
pattern in the extracted text is stripped and sets the `paragraph` context
key to the digits, the emitted record's context snapshot reflecting the
update; concretely `"1. Foo"` yields record text `"Foo"` with context
`paragraph = "1"`, whereas `"(1) Foo"` does not match the numeral rule and
is emitted unstripped with no `paragraph` key set. -/
theorem normal_paragraph_numeral_stripping :
    (∀ (child : XTree) (ref : List (Option String)) (ctx : Ctx) (t : String),
      getAttr child "class" = some "normal" →
      get_text child = some t →
      matchNumDot t.toList = true →
      parse_span child ref ctx =
        .ok ([{ text := some (String.mk (numDotStrip t.toList)), type := "text",
                ref := ref,
                context := ctxSet ctx "paragraph"
                  (some (String.mk (numDotLabel t.toList))) }],
          ctxSet ctx "paragraph" (some (String.mk (numDotLabel t.toList))))) ∧
    parse_span (pCls "normal" "1. Foo") [] [] =
      .ok ([{ text := some "Foo", type := "text", ref := [],
              context := [("paragraph", some "1")] }],
        [("paragraph", some "1")]) ∧
    parse_span (pCls "normal" "(1) Foo") [] [] =
      .ok ([{ text := some "(1) Foo", type := "text", ref := [], context := [] }],
        []) := by
  refine ⟨?_, by decide, by decide⟩
  intro child ref ctx t h1 h2 h3
  have h3' : matchNumDot t.data = true := h3
  simp [parse_span, h1, h2, h3',
    (by decide : pyStartsWith "normal" "ti-grseq-" = false),
    (by decide : pyStartsWith "normal" "ti-section-" = false)]

/-- Witness for claim C6's general conjunct at the concrete normal-class
paragraph `"12. Bar"`. -/
theorem normal_paragraph_numeral_stripping_witness :
    parse_span (pCls "normal" "12. Bar") [] [] =
      .ok ([{ text := some "Bar", type := "text", ref := [],
              context := [("paragraph", some "12")] }],
        [("paragraph", some "12")]) := by
  have h := normal_paragraph_numeral_stripping.1 (pCls "normal" "12. Bar") [] []
    "12. Bar" (by decide) (by decide) (by decide)
  exact h.trans (by decide)

/-! ### Claim C10 -/

theorem ctxHas_of_ctxGet {ctx : Ctx} {k : String} {v : Option String}
    (h : ctxGet ctx k = some v) : ctxHas ctx k = true := by
  simp only [ctxGet, Option.map_eq_some'] at h
  obtain ⟨p, hp, -⟩ := h
  have hmem := List.mem_of_find?_eq_some hp
  have hpred := List.find?_some hp
  simp only [ctxHas, List.any_eq_true]
  exact ⟨p, hmem, hpred⟩

/-- Claim C10: emission order is asymmetric between title kinds: a
`group-title` (class prefix `ti-grseq-`) or `section-title` (class prefix
`ti-section-`) record is emitted with a context snapshot taken *before*
its own `group`/`section` update, whereas a `doc-title` (class `doc-ti`)
record is emitted with a snapshot taken *after* its `document` update, its
own text already appended to the `document` key. -/
theorem title_emission_snapshot_asymmetry :
    (∀ (child : XTree) (ref : List (Option String)) (ctx : Ctx) (cls t : String),
      getAttr child "class" = some cls →
      cls ≠ "doc-ti" → cls ≠ "sti-art" → cls ≠ "ti-art" →
      pyStartsWith cls "ti-grseq-" = true →
      get_text child = some t →
      parse_span child ref ctx =
        .ok ([{ text := some t, type := "group-title", ref := ref, context := ctx }],
          ctxSet ctx "group" (some t))) ∧
    (∀ (child : XTree) (ref : List (Option String)) (ctx : Ctx) (cls t : String),
      getAttr child "class" = some cls →
      cls ≠ "doc-ti" → cls ≠ "sti-art" → cls ≠ "ti-art" →
      pyStartsWith cls "ti-grseq-" = false →
      pyStartsWith cls "ti-section-" = true →
      get_text child = some t →
      parse_span child ref ctx =
        .ok ([{ text := some t, type := "section-title", ref := ref, context := ctx }],
          ctxSet ctx "section" (some t))) ∧
    (∀ (child : XTree) (ref : List (Option String)) (ctx : Ctx) (d t : String),
      getAttr child "class" = some "doc-ti" →
      ctxGet ctx "document" = some (some d) →
      get_text child = some t →
      parse_span child ref ctx =
        .ok ([{ text := some t, type := "doc-title", ref := ref,
                context := ctxSet ctx "document" (some (d ++ t)) }],
          ctxSet ctx "document" (some (d ++ t)))) := by
  refine ⟨?_, ?_, ?_⟩
  · intro child ref ctx cls t h1 hne1 hne2 hne3 hpre h2
    have e1 : (cls == "doc-ti") = false := by simp [hne1]
    have e2 : (cls == "sti-art") = false := by simp [hne2]
    have e3 : (cls == "ti-art") = false := by simp [hne3]
    simp [parse_span, h1, e1, e2, e3, hpre, h2]
  · intro child ref ctx cls t h1 hne1 hne2 hne3 hpre1 hpre2 h2
    have e1 : (cls == "doc-ti") = false := by simp [hne1]
    have e2 : (cls == "sti-art") = false := by simp [hne2]
    have e3 : (cls == "ti-art") = false := by simp [hne3]
    simp [parse_span, h1, e1, e2, e3, hpre1, hpre2, h2]
  · intro child ref ctx d t h1 hdoc h2
    simp [parse_span, h1, ctxHas_of_ctxGet hdoc, hdoc, h2]

/-- Witness for claim C10 at concrete group, section, and doc titles. -/
theorem title_emission_snapshot_asymmetry_witness :
    parse_span (pCls "ti-grseq-1" "G") [] [("article", some "3")] =
      .ok ([{ text := some "G", type := "group-title", ref := [],
              context := [("article", some "3")] }],
        [("article", some "3"), ("group", some "G")]) ∧
    parse_span (pCls "ti-section-1" "S") [] [] =
      .ok ([{ text := some "S", type := "section-title", ref := [], context := [] }],
        [("section", some "S")]) ∧
    parse_span (pCls "doc-ti" "B") [] [("document", some "A")] =
      .ok ([{ text := some "B", type := "doc-title", ref := [],
              context := [("document", some "AB")] }],
        [("document", some "AB")]) := by
  refine ⟨?_, ?_, ?_⟩
  · exact (title_emission_snapshot_asymmetry.1 (pCls "ti-grseq-1" "G") []
      [("article", some "3")] "ti-grseq-1" "G" (by decide) (by decide) (by decide)
      (by decide) (by decide) (by decide)).trans (by decide)
  · exact (title_emission_snapshot_asymmetry.2.1 (pCls "ti-section-1" "S") [] []
      "ti-section-1" "S" (by decide) (by decide) (by decide) (by decide) (by decide)
      (by decide) (by decide)).trans (by decide)
  · exact (title_emission_snapshot_asymmetry.2.2 (pCls "doc-ti" "B") []
      [("document", some "A")] "A" "B" (by decide) (by decide) (by decide)).trans
      (by decide)

/-! ### Claim C1 -/

/-- A `<p class="normal">` with no text and no children: the Text
Extractor yields no value for it. -/
def c1Tree : XTree := .elem "html" [] none [.elem "p" [("class", "normal")] none []]

/-- Claim C1 (code bug): extraction is *not* total.  When a classified
`<p class="normal">` node has no extractable text, `_get_text` returns
`None`, `parse_span` hands it to `re.match`, and the resulting `TypeError`
escapes `parse_html` — the extraction aborts instead of producing an empty
or partial result. -/
theorem textless_normal_paragraph_raises :
    parse_html (.ok c1Tree) = .error .typeError := by
  have h1 : walkChild (.elem "p" [("class", "normal")] none []) [] [] [] =
      .error .typeError := by
    rw [walkChild_span (Or.inl (by decide))]
    decide
  exact parse_html_error (parse_article_error (goChildren_cons_error h1))

/-! ### Claim C2 -/

/-- A `<div>` whose `ti-art` child sets `article = "5"`. -/
def c2Div : XTree := .elem "div" [] none [pCls "ti-art" "Article 5"]

/-- `<html><div><p class="ti-art">Article 5</p></div><p class="normal">Text</p></html>`. -/
def c2Tree : XTree := .elem "html" [] none [c2Div, pCls "normal" "Text"]

/-- Counterexample to claim C2: the `ti-art` paragraph inside the `<div>`
sets `article = "5"` in the recursive call's own context copy, but the
sibling `normal` paragraph that follows `</div>` is emitted with an
*empty* context — the div's internal mutation is not propagated back to
the caller, contradicting the claimed div-transparency. -/
theorem div_mutation_not_visible_to_following_sibling :
    parse_article c2Tree [] [] =
      .ok [{ text := some "Article 5", type := "art-title", ref := [],
             context := [("article", some "5")] },
           { text := some "Text", type := "text", ref := [], context := [] }] := by
  have hart : walkChild (pCls "ti-art" "Article 5") [] [] [] =
      .ok ([{ text := some "Article 5", type := "art-title", ref := [],
              context := [("article", some "5")] }], [("article", some "5")]) := by
    rw [walkChild_span (Or.inl (by decide))]
    decide
  have hdivpa : parse_article c2Div [] [] =
      .ok [{ text := some "Article 5", type := "art-title", ref := [],
             context := [("article", some "5")] }] :=
    parse_article_ok (goChildren_cons_ok hart (goChildren_nil _ _ _))
  have hdiv : walkChild c2Div [] [] [] =
      .ok ([{ text := some "Article 5", type := "art-title", ref := [],
              context := [("article", some "5")] }], []) :=
    walkChild_div_ok (by decide) hdivpa
  have hnorm : walkChild (pCls "normal" "Text") [] [] [] =
      .ok ([{ text := some "Text", type := "text", ref := [], context := [] }], []) := by
    rw [walkChild_span (Or.inl (by decide))]
    decide
  exact parse_article_ok
    (goChildren_cons_ok hdiv (goChildren_cons_ok hnorm (goChildren_nil _ _ _)))

/-- Claim C2 as amended: on a `<div>` child the walker recurses with the
same reference path and the caller's current working context, but the
recursive call operates on its own copy — context mutations made by the
div's children are *not* propagated back to the caller, and the siblings
following the `</div>` continue from the caller's working context
unchanged. -/
theorem div_recursion_does_not_propagate_mutations_back :
    ∀ (child : XTree) (cs : List XTree) (ref : List (Option String)) (orig w : Ctx),
      get_tag_name child.tag = "div" →
      goChildren orig ref (child :: cs) w =
        match parse_article child ref w with
        | .error e => .error e
        | .ok o =>
          match goChildren orig ref cs w with
          | .error e => .error e
          | .ok (o2, w2) => .ok (o ++ o2, w2) := by
  intro child cs ref orig w h
  rw [goChildren, walkChild_div h]
  rcases hp : parse_article child ref w with e | o <;> simp only [hp]

/-- Witness for the amended claim C2 at the concrete two-sibling tree. -/
theorem div_recursion_does_not_propagate_mutations_back_witness :
    goChildren [] [] [c2Div, pCls "normal" "Text"] [] =
      match parse_article c2Div [] [] with
      | .error e => .error e
      | .ok o =>
        match goChildren [] [] [pCls "normal" "Text"] [] with
        | .error e => .error e
        | .ok (o2, w2) => .ok (o ++ o2, w2) :=
  div_recursion_does_not_propagate_mutations_back c2Div [pCls "normal" "Text"]
    [] [] [] (by decide)

/-! ### Claim C3 -/

/-- Two sibling `<div>` subtrees: the first sets `article = "5"`, the
second holds a plain `normal` paragraph. -/
def c3Tree : XTree := .elem "html" [] none
  [.elem "div" [] none [pCls "ti-art" "Article 5"],
   .elem "div" [] none [pCls "normal" "Text"]]

/-- Claim C3: a `<body>` child is walked with the same reference path and
the walker's incoming `context` argument, and its internal context
mutations are not propagated back out — the caller's working context `w`
continues unchanged into the following siblings; and concretely, context
set inside a first sibling `<div>` subtree (`article = "5"`) does not leak
into a second sibling `<div>` subtree, whose `normal` paragraph is emitted
with an empty context. -/
theorem body_context_boundary_and_sibling_isolation :
    (∀ (child : XTree) (cs : List XTree) (ref : List (Option String)) (orig w : Ctx),
      get_tag_name child.tag = "body" →
      goChildren orig ref (child :: cs) w =
        match parse_article child ref orig with
        | .error e => .error e
        | .ok o =>
          match goChildren orig ref cs w with
          | .error e => .error e
          | .ok (o2, w2) => .ok (o ++ o2, w2)) ∧
    parse_article c3Tree [] [] =
      .ok [{ text := some "Article 5", type := "art-title", ref := [],
             context := [("article", some "5")] },
           { text := some "Text", type := "text", ref := [], context := [] }] := by
  constructor
  · intro child cs ref orig w h
    rw [goChildren, walkChild_body h]
    rcases hp : parse_article child ref orig with e | o <;> simp only [hp]
  · have hart : walkChild (pCls "ti-art" "Article 5") [] [] [] =
        .ok ([{ text := some "Article 5", type := "art-title", ref := [],
                context := [("article", some "5")] }], [("article", some "5")]) := by
      rw [walkChild_span (Or.inl (by decide))]
      decide
    have hdiv1 : walkChild (.elem "div" [] none [pCls "ti-art" "Article 5"]) [] [] [] =
        .ok ([{ text := some "Article 5", type := "art-title", ref := [],
                context := [("article", some "5")] }], []) :=
      walkChild_div_ok (by decide)
        (parse_article_ok (goChildren_cons_ok hart (goChildren_nil _ _ _)))
    have hnorm : walkChild (pCls "normal" "Text") [] [] [] =
        .ok ([{ text := some "Text", type := "text", ref := [], context := [] }], []) := by
      rw [walkChild_span (Or.inl (by decide))]
      decide
    have hdiv2 : walkChild (.elem "div" [] none [pCls "normal" "Text"]) [] [] [] =
        .ok ([{ text := some "Text", type := "text", ref := [], context := [] }], []) :=
      walkChild_div_ok (by decide)
        (parse_article_ok (goChildren_cons_ok hnorm (goChildren_nil _ _ _)))
    exact parse_article_ok
      (goChildren_cons_ok hdiv1 (goChildren_cons_ok hdiv2 (goChildren_nil _ _ _)))

/-- Witness for claim C3's general conjunct at a concrete `<body>` child
followed by a sibling. -/
theorem body_context_boundary_witness :
    goChildren [] [] [.elem "body" [] none [pCls "normal" "Text"],
        pCls "normal" "After"] [] =
      match parse_article (.elem "body" [] none [pCls "normal" "Text"]) [] [] with
      | .error e => .error e
      | .ok o =>
        match goChildren [] [] [pCls "normal" "After"] [] with
        | .error e => .error e
        | .ok (o2, w2) => .ok (o ++ o2, w2) :=
  body_context_boundary_and_sibling_isolation.1
    (.elem "body" [] none [pCls "normal" "Text"]) [pCls "normal" "After"]
    [] [] [] (by decide)

/-! ### Claim C4 -/

/-- Claim C4: every record emission is an independent snapshot — once the
records `o1` have been emitted while processing the children `cs1`, the
processing of any continuation `cs2` (with whatever further context
mutations it performs) leaves `o1` unchanged as a prefix of the final
output: no later mutation of a working context alters a previously
emitted record or its attached context. -/
theorem emitted_records_are_immutable_snapshots :
    ∀ (cs1 cs2 : List XTree) (orig : Ctx) (ref : List (Option String))
      (w w1 : Ctx) (o1 : List Record),
      goChildren orig ref cs1 w = .ok (o1, w1) →
      goChildren orig ref (cs1 ++ cs2) w =
        match goChildren orig ref cs2 w1 with
        | .error e => .error e
        | .ok (o2, w2) => .ok (o1 ++ o2, w2) := by
  intro cs1
  induction cs1 with
  | nil =>
    intro cs2 orig ref w w1 o1 h
    rw [goChildren_nil] at h
    simp only [Except.ok.injEq, Prod.mk.injEq] at h
    obtain ⟨rfl, rfl⟩ := h
    simp only [List.nil_append]
    rcases hc : goChildren orig ref cs2 w with e | ⟨o2, w2⟩ <;> simp [hc]
  | cons c cs1 ih =>
    intro cs2 orig ref w w1 o1 h
    rw [goChildren] at h
    rcases hw : walkChild c ref orig w with e | ⟨a, wa⟩
    · simp [hw] at h
    · simp only [hw] at h
      rcases hg : goChildren orig ref cs1 wa with e2 | ⟨b, wb⟩
      · simp [hg] at h
      · simp only [hg, Except.ok.injEq, Prod.mk.injEq] at h
        obtain ⟨rfl, rfl⟩ := h
        rw [List.cons_append, goChildren]
        simp only [hw]
        rw [ih cs2 orig ref wa wb b hg]
        rcases hc : goChildren orig ref cs2 wb with e3 | ⟨o2, w2⟩ <;>
          simp [hc, List.append_assoc]

/-- Witness for claim C4: the record emitted by a `ti-art` child is
unchanged in the final output after a later `doc-ti` sibling mutates the
working context. -/
theorem emitted_records_are_immutable_snapshots_witness :
    goChildren [] [] ([pCls "ti-art" "Article 5"] ++ [pCls "doc-ti" "T"]) [] =
      match goChildren [] [] [pCls "doc-ti" "T"] [("article", some "5")] with
      | .error e => .error e
      | .ok (o2, w2) =>
        .ok ([{ text := some "Article 5", type := "art-title", ref := [],
                context := [("article", some "5")] }] ++ o2, w2) := by
  have h1 : goChildren [] [] [pCls "ti-art" "Article 5"] [] =
      .ok ([{ text := some "Article 5", type := "art-title", ref := [],
              context := [("article", some "5")] }], [("article", some "5")]) := by
    have hart : walkChild (pCls "ti-art" "Article 5") [] [] [] =
        .ok ([{ text := some "Article 5", type := "art-title", ref := [],
                context := [("article", some "5")] }], [("article", some "5")]) := by
      rw [walkChild_span (Or.inl (by decide))]
      decide
    exact goChildren_cons_ok hart (goChildren_nil _ _ _)
  exact emitted_records_are_immutable_snapshots [pCls "ti-art" "Article 5"]
    [pCls "doc-ti" "T"] [] [] [] [("article", some "5")] _ h1

/-! ### Claim C5 -/

/-- A two-column enumeration table: key cell holding a single `<p>` with
the outline label, value cell holding `val`. -/
def c5Table (keyTxt : String) (val : List XTree) : XTree :=
  .elem "table" [] none
    [.elem "tbody" [] none
      [.elem "tr" [] none
        [.elem "td" [] none [.elem "p" [] (some keyTxt) []],
         .elem "td" [] none val]]]

/-- A document with one two-column table, key `"(1)"`, value a `normal`
paragraph `"Bar"`. -/
def c5Tree1 : XTree := .elem "html" [] none [c5Table "(1)" [pCls "normal" "Bar"]]

/-- Three two-column tables nested through the value cells, keys `"(1)"`,
`"(2)"`, `"(3)"` outermost first, with a `normal` paragraph `"Bar"`
innermost. -/
def c5Tree3 : XTree := .elem "html" [] none
  [c5Table "(1)" [c5Table "(2)" [c5Table "(3)" [pCls "normal" "Bar"]]]]

/-- Claim C5: on a `<table>` whose row search yields exactly two cells,
whose first cell contains exactly one child, and whose child is a `<p>`,
the walker recurses into the second cell with the reference path extended
by the first cell's extracted text appended at the end; any table not
matching this shape is silently skipped with no emission and no recursion;
concretely the one-table document yields a record with reference path
`["(1)"]` and text `"Bar"`, and the three-deep nesting yields the
three-element reference path `["(1)", "(2)", "(3)"]`, outermost label
first. -/
theorem table_outline_recursion :
    (∀ (child c1 c2 k : XTree) (ref : List (Option String)) (orig w : Ctx),
      get_tag_name child.tag = "table" →
      tableCells child = [c1, c2] → c1.children = [k] →
      get_tag_name k.tag = "p" →
      walkChild child ref orig w =
        match parse_article c2 (ref ++ [get_text k]) w with
        | .error e => .error e
        | .ok o => .ok (o, w)) ∧
    (∀ (child : XTree) (ref : List (Option String)) (orig w : Ctx),
      get_tag_name child.tag = "table" →
      ¬ (∃ c1 c2 k, tableCells child = [c1, c2] ∧ c1.children = [k] ∧
        get_tag_name k.tag = "p") →
      walkChild child ref orig w = .ok ([], w)) ∧
    parse_article c5Tree1 [] [] =
      .ok [{ text := some "Bar", type := "text", ref := [some "(1)"],
             context := [] }] ∧
    parse_article c5Tree3 [] [] =
      .ok [{ text := some "Bar", type := "text",
             ref := [some "(1)", some "(2)", some "(3)"], context := [] }] := by
  refine ⟨?_, ?_, ?_, ?_⟩
  · intro child c1 c2 k ref orig w htag h1 h2 h3
    exact walkChild_table htag (tableShape_of h1 h2 h3)
  · intro child ref orig w htag hn
    exact walkChild_table_skip htag (tableShape_none_of hn)
  · have hbar : walkChild (pCls "normal" "Bar")
        (([] : List (Option String)) ++ [get_text (.elem "p" [] (some "(1)") [])])
        [] [] =
        .ok ([{ text := some "Bar", type := "text", ref := [some "(1)"],
                context := [] }], []) := by
      rw [walkChild_span (Or.inl (by decide))]
      decide
    have hval : parse_article (.elem "td" [] none [pCls "normal" "Bar"])
        (([] : List (Option String)) ++ [get_text (.elem "p" [] (some "(1)") [])])
        [] =
        .ok [{ text := some "Bar", type := "text", ref := [some "(1)"],
               context := [] }] :=
      parse_article_ok (goChildren_cons_ok hbar (goChildren_nil _ _ _))
    have htab : walkChild (c5Table "(1)" [pCls "normal" "Bar"]) [] [] [] =
        .ok ([{ text := some "Bar", type := "text", ref := [some "(1)"],
                context := [] }], []) :=
      walkChild_table_ok (by decide) rfl hval
    exact parse_article_ok (goChildren_cons_ok htab (goChildren_nil _ _ _))
  · have hbar : walkChild (pCls "normal" "Bar")
        (([some "(1)", some "(2)"] : List (Option String)) ++
          [get_text (.elem "p" [] (some "(3)") [])]) [] [] =
        .ok ([{ text := some "Bar", type := "text",
                ref := [some "(1)", some "(2)", some "(3)"], context := [] }],
          []) := by
      rw [walkChild_span (Or.inl (by decide))]
      decide
    have hv3 : parse_article (.elem "td" [] none [pCls "normal" "Bar"])
        (([some "(1)", some "(2)"] : List (Option String)) ++
          [get_text (.elem "p" [] (some "(3)") [])]) [] =
        .ok [{ text := some "Bar", type := "text",
               ref := [some "(1)", some "(2)", some "(3)"], context := [] }] :=
      parse_article_ok (goChildren_cons_ok hbar (goChildren_nil _ _ _))
    have ht3 : walkChild (c5Table "(3)" [pCls "normal" "Bar"])
        (([some "(1)"] : List (Option String)) ++
          [get_text (.elem "p" [] (some "(2)") [])]) [] [] =
        .ok ([{ text := some "Bar", type := "text",
                ref := [some "(1)", some "(2)", some "(3)"], context := [] }],
          []) :=
      walkChild_table_ok (by decide) rfl hv3
    have hv2 : parse_article
        (.elem "td" [] none [c5Table "(3)" [pCls "normal" "Bar"]])
        (([some "(1)"] : List (Option String)) ++
          [get_text (.elem "p" [] (some "(2)") [])]) [] =
        .ok [{ text := some "Bar", type := "text",
               ref := [some "(1)", some "(2)", some "(3)"], context := [] }] :=
      parse_article_ok (goChildren_cons_ok ht3 (goChildren_nil _ _ _))
    have ht2 : walkChild (c5Table "(2)" [c5Table "(3)" [pCls "normal" "Bar"]])
        (([] : List (Option String)) ++ [get_text (.elem "p" [] (some "(1)") [])])
        [] [] =
        .ok ([{ text := some "Bar", type := "text",
                ref := [some "(1)", some "(2)", some "(3)"], context := [] }],
          []) :=
      walkChild_table_ok (by decide) rfl hv2
    have hv1 : parse_article
        (.elem "td" [] none [c5Table "(2)" [c5Table "(3)" [pCls "normal" "Bar"]]])
        (([] : List (Option String)) ++ [get_text (.elem "p" [] (some "(1)") [])])
        [] =
        .ok [{ text := some "Bar", type := "text",
               ref := [some "(1)", some "(2)", some "(3)"], context := [] }] :=
      parse_article_ok (goChildren_cons_ok ht2 (goChildren_nil _ _ _))
    have ht1 : walkChild
        (c5Table "(1)" [c5Table "(2)" [c5Table "(3)" [pCls "normal" "Bar"]]])
        [] [] [] =
        .ok ([{ text := some "Bar", type := "text",
                ref := [some "(1)", some "(2)", some "(3)"], context := [] }],
          []) :=
      walkChild_table_ok (by decide) rfl hv1
    exact parse_article_ok (goChildren_cons_ok ht1 (goChildren_nil _ _ _))

/-- Witness for claim C5's general conjuncts: the matching shape at the
concrete one-level table, and a `<table>` with no rows at all for the skip
rule. -/
theorem table_outline_recursion_witness :
    walkChild (c5Table "(1)" [pCls "normal" "Bar"]) [] [] [] =
      (match parse_article (.elem "td" [] none [pCls "normal" "Bar"])
          (([] : List (Option String)) ++ [get_text (.elem "p" [] (some "(1)") [])])
          [] with
        | .error e => .error e
        | .ok o => .ok (o, ([] : Ctx))) ∧
    walkChild (.elem "table" [] none []) [] [] [] = .ok ([], []) := by
  constructor
  · exact table_outline_recursion.1 (c5Table "(1)" [pCls "normal" "Bar"])
      (.elem "td" [] none [.elem "p" [] (some "(1)") []])
      (.elem "td" [] none [pCls "normal" "Bar"])
      (.elem "p" [] (some "(1)") []) [] [] [] (by decide) rfl rfl
      (by decide)
  · exact table_outline_recursion.2.1 (.elem "table" [] none []) [] [] []
      (by decide) (by simp [tableCells, findTds, XTree.children])

/-! ### Claim C7 -/

/-- The `parse_html` doctest document: a `doc-ti` title, a `ti-grseq-1`
group title wrapping its text in a `<span>`, then a `normal` paragraph. -/
def c7Tree : XTree := .elem "html" [] none
  [pCls "doc-ti" "ANNEX",
   .elem "p" [("class", "ti-grseq-1")] none [.elem "span" [] (some "Group") []],
   pCls "normal" "Text"]

/-- Claim C7: the Record Assembler retains only records whose `type` is
`"text"` (so `doc-title`, `group-title`, `section-title`, `art-title`,
`art-subtitle` and `link` records never appear in the output), and every
retained record carries every key of its context snapshot as a top-level
field while preserving the nested context; concretely the earlier `doc-ti`
and group titles of `c7Tree` surface as top-level `document`/`group`
fields on the one retained `text` record. -/
theorem assembler_filters_text_and_flattens_context :
    (∀ (tree : XTree) (out : List FlatRecord) (r : FlatRecord),
      parse_html (.ok tree) = .ok out → r ∈ out →
      r.base.type = "text" ∧ r.top = r.base.context) ∧
    parse_html (.ok c7Tree) =
      .ok [{ base := { text := some "Text", type := "text", ref := [],
                       context := [("document", some "ANNEX"),
                                   ("group", some "Group")] },
             top := [("document", some "ANNEX"), ("group", some "Group")] }] := by
  constructor
  · intro tree out r hph hr
    rcases hpa : parse_article tree [] [] with e | items
    · rw [parse_html_error hpa] at hph
      cases hph
    · rw [parse_html_ok hpa] at hph
      simp only [Except.ok.injEq] at hph
      subst hph
      obtain ⟨hm, htxt⟩ := List.mem_filter.mp hr
      refine ⟨by simpa using htxt, ?_⟩
      obtain ⟨rec, hrec, rfl⟩ := List.mem_map.mp hm
      rfl
  · have h1 : walkChild (pCls "doc-ti" "ANNEX") [] [] [] =
        .ok ([{ text := some "ANNEX", type := "doc-title", ref := [],
                context := [("document", some "ANNEX")] }],
          [("document", some "ANNEX")]) := by
      rw [walkChild_span (Or.inl (by decide))]
      decide
    have h2 : walkChild
        (.elem "p" [("class", "ti-grseq-1")] none
          [.elem "span" [] (some "Group") []]) [] []
        [("document", some "ANNEX")] =
        .ok ([{ text := some "Group", type := "group-title", ref := [],
                context := [("document", some "ANNEX")] }],
          [("document", some "ANNEX"), ("group", some "Group")]) := by
      rw [walkChild_span (Or.inl (by decide))]
      decide
    have h3 : walkChild (pCls "normal" "Text") [] []
        [("document", some "ANNEX"), ("group", some "Group")] =
        .ok ([{ text := some "Text", type := "text", ref := [],
                context := [("document", some "ANNEX"),
                            ("group", some "Group")] }],
          [("document", some "ANNEX"), ("group", some "Group")]) := by
      rw [walkChild_span (Or.inl (by decide))]
      decide
    have hpa : parse_article c7Tree [] [] =
        .ok [{ text := some "ANNEX", type := "doc-title", ref := [],
               context := [("document", some "ANNEX")] },
             { text := some "Group", type := "group-title", ref := [],
               context := [("document", some "ANNEX")] },
             { text := some "Text", type := "text", ref := [],
               context := [("document", some "ANNEX"),
                           ("group", some "Group")] }] :=
      parse_article_ok (goChildren_cons_ok h1 (goChildren_cons_ok h2
        (goChildren_cons_ok h3 (goChildren_nil _ _ _))))
    exact (parse_html_ok hpa).trans (by decide)

/-- Witness for claim C7's general conjunct at the concrete document. -/
theorem assembler_filters_text_and_flattens_context_witness :
    ({ base := { text := some "Text", type := "text", ref := [],
                 context := [("document", some "ANNEX"), ("group", some "Group")] },
       top := [("document", some "ANNEX"), ("group", some "Group")] } :
        FlatRecord).base.type = "text" ∧
    ({ base := { text := some "Text", type := "text", ref := [],
                 context := [("document", some "ANNEX"), ("group", some "Group")] },
       top := [("document", some "ANNEX"), ("group", some "Group")] } :
        FlatRecord).top =
      ({ base := { text := some "Text", type := "text", ref := [],
                   context := [("document", some "ANNEX"), ("group", some "Group")] },
         top := [("document", some "ANNEX"), ("group", some "Group")] } :
          FlatRecord).base.context :=
  assembler_filters_text_and_flattens_context.1 c7Tree _ _
    assembler_filters_text_and_flattens_context.2 (by decide)

end Eurlex
